import Mathlib

/-!
Shallow embedding of `climateTrend_analyzer/climate.py`.

The program is a pandas pipeline of four stateless operations:
`import_data` (format dispatch, datetime-index coercion, dropna),
`analyze_trends` (monthly/yearly resampling, scipy linear regression,
seasonal decomposition when at least 24 resampled points exist),
`visualize_data` (three plot kinds) and `calculate_climate_index`
(SPI z-score, GDD cumulative sum).

Modelling conventions:
  * Data values held in a frame are real numbers (after loading, the
    frames are clean); values *produced* by index computations are
    modelled by `FloatVal`, a real number extended with IEEE-754
    `nan`/`inf`/`-inf`, because the SPI division is unguarded and can
    produce NaN.
  * Python `ValueError`/`KeyError`/`IndexError` are the constructors of
    `PyError`; fallible operations return `Except PyError _`.
  * File reading itself is I/O and is modelled by handing `import_data`
    the frame the pandas reader produced for the file; `pd.to_datetime`
    string parsing is a parameter `parse`.
  * Library calls are translated from the libraries' own behaviour:
    `scipy.stats.linregress` raises on empty input, raises when all x
    values are identical (for more than one point), special-cases the
    correlation to 0 when either variance compares equal to zero and
    clamps it to [-1, 1], and silently propagates NaN;
    `statsmodels.seasonal_decompose` raises a ValueError on non-finite
    input and is otherwise abstracted as a parameter `decomp` returning
    the (seasonal, residual) pair, and the p-value of the regression as
    a parameter `pval`, since no claim inspects their numeric values.
  * `resample(...).mean()` creates one bin per calendar month or year
    between the earliest and the latest date of the index, holding the
    mean of the rows that fall in it and NaN when no row does.
-/

namespace Climate

/-- IEEE-754 style value: a real number, NaN, or a signed infinity. -/
inductive FloatVal where
  | real (r : ℝ)
  | nan
  | inf
  | ninf

noncomputable instance : DecidableEq FloatVal := Classical.decEq FloatVal

/-- Float subtraction with NaN/infinity propagation. -/
def fvSub : FloatVal → FloatVal → FloatVal
  | FloatVal.real a, FloatVal.real b => FloatVal.real (a - b)
  | FloatVal.nan, _ => FloatVal.nan
  | _, FloatVal.nan => FloatVal.nan
  | FloatVal.inf, FloatVal.inf => FloatVal.nan
  | FloatVal.ninf, FloatVal.ninf => FloatVal.nan
  | FloatVal.inf, _ => FloatVal.inf
  | FloatVal.ninf, _ => FloatVal.ninf
  | _, FloatVal.inf => FloatVal.ninf
  | _, FloatVal.ninf => FloatVal.inf

/-- Float multiplication with NaN/infinity propagation (0 · ∞ = NaN). -/
noncomputable def fvMul : FloatVal → FloatVal → FloatVal
  | FloatVal.real a, FloatVal.real b => FloatVal.real (a * b)
  | FloatVal.nan, _ => FloatVal.nan
  | _, FloatVal.nan => FloatVal.nan
  | FloatVal.inf, FloatVal.inf => FloatVal.inf
  | FloatVal.inf, FloatVal.ninf => FloatVal.ninf
  | FloatVal.ninf, FloatVal.inf => FloatVal.ninf
  | FloatVal.ninf, FloatVal.ninf => FloatVal.inf
  | FloatVal.inf, FloatVal.real b =>
      if b = 0 then FloatVal.nan else if 0 < b then FloatVal.inf else FloatVal.ninf
  | FloatVal.real a, FloatVal.inf =>
      if a = 0 then FloatVal.nan else if 0 < a then FloatVal.inf else FloatVal.ninf
  | FloatVal.ninf, FloatVal.real b =>
      if b = 0 then FloatVal.nan else if 0 < b then FloatVal.ninf else FloatVal.inf
  | FloatVal.real a, FloatVal.ninf =>
      if a = 0 then FloatVal.nan else if 0 < a then FloatVal.ninf else FloatVal.inf

/-- Float division of a real numerator by a real denominator
(0/0 = NaN, x/0 = ±∞ for x ≠ 0). -/
noncomputable def fdivF (a b : ℝ) : FloatVal :=
  if b = 0 then
    (if a = 0 then FloatVal.nan else if 0 < a then FloatVal.inf else FloatVal.ninf)
  else FloatVal.real (a / b)

/-- Division of a real numerator by a float denominator
(used for the unguarded SPI division, whose denominator may be NaN). -/
noncomputable def divByStd (a : ℝ) : FloatVal → FloatVal
  | FloatVal.real b => fdivF a b
  | FloatVal.nan => FloatVal.nan
  | FloatVal.inf => FloatVal.real 0
  | FloatVal.ninf => FloatVal.real 0

/-- Order on float values as IEEE `<=` restricted to (finite) reals;
comparisons involving NaN are never true. -/
def fvLe (a b : FloatVal) : Prop :=
  ∃ x y, a = FloatVal.real x ∧ b = FloatVal.real y ∧ x ≤ y

/-- Python exception kinds distinguished by the program. -/
inductive PyError where
  | valueError (msg : String)
  | keyError (key : String)
  | indexError (msg : String)
deriving DecidableEq

/-- Calendar date (pandas timestamps all lie in years 1677-2262,
so a natural-number year suffices). -/
structure Date where
  y : ℕ
  m : ℕ
  d : ℕ
deriving DecidableEq

/-- A cleaned, date-indexed data frame: sorted date index plus named
numeric columns (`pd.DataFrame` after loading). -/
structure DFrame where
  index : List Date
  cols : List (String × List ℝ)

/-- Model of `df.columns`. -/
def DFrame.columnNames (df : DFrame) : List String :=
  df.cols.map Prod.fst

/-- Column lookup `df[name]`: the values of a named column, when present. -/
def DFrame.getCol (df : DFrame) (name : String) : Option (List ℝ) :=
  (df.cols.find? (fun c => c.1 == name)).map Prod.snd

/-- Frame well-formedness: every column has one value per index entry. -/
def DFrame.Wf (df : DFrame) : Prop :=
  ∀ c ∈ df.cols, c.2.length = df.index.length

/-- A named pandas series. -/
structure Series (α : Type) where
  name : String
  index : List Date
  values : List α

/-- Model of `xs.mean()`: arithmetic mean of a list of reals. -/
noncomputable def listMean (xs : List ℝ) : ℝ :=
  xs.sum / xs.length

/-- Model of `xs.std()`: pandas sample standard deviation (ddof = 1);
NaN when fewer than two points exist. -/
noncomputable def sampleStd (xs : List ℝ) : FloatVal :=
  if xs.length ≤ 1 then FloatVal.nan
  else FloatVal.real
    (Real.sqrt ((xs.map (fun x => (x - listMean xs) ^ 2)).sum / (xs.length - 1)))

/-- Running cumulative sum starting from `acc` (`Series.cumsum`). -/
def cumsumFrom (acc : ℝ) : List ℝ → List ℝ
  | [] => []
  | x :: xs => (acc + x) :: cumsumFrom (acc + x) xs

/-- Model of `xs.cumsum()`. -/
def cumsum (xs : List ℝ) : List ℝ := cumsumFrom 0 xs

/-- The SPI values: per-point z-score of the precipitation column,
`(x - mean) / std`, with the division unguarded. -/
noncomputable def spiValues (xs : List ℝ) : List FloatVal :=
  xs.map (fun x => divByStd (x - listMean xs) (sampleStd xs))

/-- The GDD values: base temperature subtracted, negatives floored to
zero, running cumulative sum (`np.maximum(temp - base_temp, 0).cumsum()`). -/
noncomputable def gddValues (temps : List ℝ) (baseTemp : ℝ) : List ℝ :=
  cumsum (temps.map (fun t => max (t - baseTemp) 0))

/-- Model of `calculate_climate_index(data, index_type, **params)`: dispatches on
the index-type tag; `params` is the optional `base_temp` entry
(`params.get('base_temp', 10)`). -/
noncomputable def calculate_climate_index (data : DFrame) (index_type : String)
    (params : Option ℝ) : Except PyError (Series FloatVal) :=
  if index_type = "SPI" then
    match data.getCol "precipitation" with
    | none => Except.error (PyError.valueError "Precipitation data not found in the DataFrame")
    | some precipitation =>
        Except.ok ⟨"SPI", data.index, spiValues precipitation⟩
  else if index_type = "GDD" then
    let base_temp := params.getD 10
    match data.getCol "temperature" with
    | some temp =>
        Except.ok ⟨"GDD", data.index, (gddValues temp base_temp).map FloatVal.real⟩
    | none =>
        match data.getCol "temp_max", data.getCol "temp_min" with
        | some temp_max, some temp_min =>
            Except.ok ⟨"GDD", data.index,
              (cumsum ((List.zipWith (fun a b => max ((a + b) / 2 - base_temp) 0)
                temp_max temp_min))).map FloatVal.real⟩
        | _, _ =>
            Except.error (PyError.valueError "Required temperature data not found in the DataFrame")
  else
    Except.error (PyError.valueError "Unsupported climate index")

/-- Whether a float value is finite (a real number, not NaN or an
infinity); model of `np.isfinite` on one value. -/
def FloatVal.isFinite : FloatVal → Bool
  | FloatVal.real _ => true
  | _ => false

/-- The field of a finite float value (0 for NaN and infinities). -/
def FloatVal.toRealD : FloatVal → ℝ
  | FloatVal.real r => r
  | _ => 0

/-- Float addition with NaN/infinity propagation. -/
def fvAdd : FloatVal → FloatVal → FloatVal
  | FloatVal.real a, FloatVal.real b => FloatVal.real (a + b)
  | FloatVal.nan, _ => FloatVal.nan
  | _, FloatVal.nan => FloatVal.nan
  | FloatVal.inf, FloatVal.ninf => FloatVal.nan
  | FloatVal.ninf, FloatVal.inf => FloatVal.nan
  | FloatVal.inf, _ => FloatVal.inf
  | _, FloatVal.inf => FloatVal.inf
  | FloatVal.ninf, _ => FloatVal.ninf
  | _, FloatVal.ninf => FloatVal.ninf

/-- Float division with NaN/infinity propagation (0/0 = NaN,
x/0 = signed infinity, finite/infinite = 0, infinite/infinite = NaN). -/
noncomputable def fvDiv : FloatVal → FloatVal → FloatVal
  | FloatVal.nan, _ => FloatVal.nan
  | _, FloatVal.nan => FloatVal.nan
  | FloatVal.real a, FloatVal.real b => fdivF a b
  | FloatVal.inf, FloatVal.real b => if b < 0 then FloatVal.ninf else FloatVal.inf
  | FloatVal.ninf, FloatVal.real b => if b < 0 then FloatVal.inf else FloatVal.ninf
  | FloatVal.real _, FloatVal.inf => FloatVal.real 0
  | FloatVal.real _, FloatVal.ninf => FloatVal.real 0
  | _, _ => FloatVal.nan

/-- Model of `np.sqrt` on one float value: NaN for negative arguments. -/
noncomputable def sqrtF : FloatVal → FloatVal
  | FloatVal.real a => if a < 0 then FloatVal.nan else FloatVal.real (Real.sqrt a)
  | FloatVal.nan => FloatVal.nan
  | FloatVal.inf => FloatVal.inf
  | FloatVal.ninf => FloatVal.nan

/-- Float sum of a vector (NaN propagates, as in `np.sum`). -/
def fvSum (l : List FloatVal) : FloatVal :=
  l.foldr fvAdd (FloatVal.real 0)

/-- Model of `np.mean` on a float vector: NaN propagates, and the empty
vector gives 0/0 = NaN. -/
noncomputable def fvMean (l : List FloatVal) : FloatVal :=
  fvDiv (fvSum l) (FloatVal.real l.length)

/-- Strict order on float values as IEEE `<` restricted to (finite)
reals; comparisons involving NaN are never true. -/
def fvLt (a b : FloatVal) : Prop :=
  ∃ x y, a = FloatVal.real x ∧ b = FloatVal.real y ∧ x < y

/-- Minimum of a list of naturals starting from `acc`, by linear scan
(model of `DatetimeIndex.min()` over period serial numbers). -/
def minAcc (acc : ℕ) : List ℕ → ℕ
  | [] => acc
  | x :: xs => if x < acc then minAcc x xs else minAcc acc xs

/-- Maximum of a list of naturals starting from `acc`, by linear scan
(model of `DatetimeIndex.max()` over period serial numbers). -/
def maxAcc (acc : ℕ) : List ℕ → ℕ
  | [] => acc
  | x :: xs => if acc < x then maxAcc x xs else maxAcc acc xs

/-- Model of `series.resample(rule).mean()`: pandas creates one bin for
*every* calendar period between the earliest and the latest date of the
index, takes the mean of the rows falling in each bin, and leaves NaN
in the bins no row falls in. `idx` maps a date to its period's serial
number (consecutive periods have consecutive serials). -/
noncomputable def resampleBins (idx : Date → ℕ) (xs : List (Date × ℝ)) : List FloatVal :=
  match xs with
  | [] => []
  | p :: rest =>
      let is := (p :: rest).map (fun q => idx q.1)
      let lo := minAcc (idx p.1) is
      let hi := maxAcc (idx p.1) is
      (List.range (hi + 1 - lo)).map (fun k =>
        let group := ((p :: rest).filter (fun q => decide (idx q.1 = lo + k))).map Prod.snd
        if group.isEmpty then FloatVal.nan else FloatVal.real (listMean group))

/-- Model of `series.resample('M').mean()`: monthly bins, keyed by the
serial month number 12·year + month. -/
noncomputable def monthlyMeans (xs : List (Date × ℝ)) : List FloatVal :=
  resampleBins (fun d => 12 * d.y + d.m) xs

/-- Model of `series.resample('Y').mean()`: yearly bins, keyed by the
year. -/
noncomputable def yearlyMeans (xs : List (Date × ℝ)) : List FloatVal :=
  resampleBins (fun d => d.y) xs

/-- Model of `np.arange(n)` as a list of reals. -/
def natCastRange (n : ℕ) : List ℝ :=
  (List.range n).map (fun (i : ℕ) => (i : ℝ))

/-- Model of `np.cov(x, y, bias=1)` entry on float vectors: population
covariance of two equally long vectors, with NaN propagation. -/
noncomputable def covBiasF (x y : List FloatVal) : FloatVal :=
  fvDiv
    (fvSum (List.zipWith (fun a b => fvMul (fvSub a (fvMean x)) (fvSub b (fvMean y))) x y))
    (FloatVal.real x.length)

/-- The all-finite specialization of `covBiasF`, used by the proofs:
population covariance of two real vectors. -/
noncomputable def covBias (x y : List ℝ) : ℝ :=
  (List.zipWith (fun a b => (a - listMean x) * (b - listMean y)) x y).sum / x.length

/-- scipy clamps the correlation coefficient to [-1, 1] to absorb
rounding. -/
noncomputable def clampR (r : ℝ) : ℝ :=
  if 1 < r then 1 else if r < -1 then -1 else r

/-- The clamp on float values: an infinity passes the comparison and is
clamped; NaN fails both comparisons and passes through. -/
noncomputable def clampF : FloatVal → FloatVal
  | FloatVal.real v => FloatVal.real (clampR v)
  | FloatVal.inf => FloatVal.real 1
  | FloatVal.ninf => FloatVal.real (-1)
  | FloatVal.nan => FloatVal.nan

/-- The statistics returned by `scipy.stats.linregress`. -/
structure TrendStats where
  slope : FloatVal
  intercept : FloatVal
  r_value : FloatVal
  p_value : FloatVal

/-- The pure part of `scipy.stats.linregress(x, y)`: slope and intercept
of the ordinary least-squares line, correlation coefficient (0 when
either variance compares equal to 0, clamped to [-1, 1]; NaN input
propagates to NaN statistics), p-value from the supplied t-distribution
tail function `pval` (given r and the sample size). The x vector is
always the real-valued `np.arange` in this program. -/
noncomputable def linStats (pval : FloatVal → ℕ → FloatVal) (x : List ℝ)
    (y : List FloatVal) : TrendStats :=
  let xF := x.map FloatVal.real
  let ssxm := covBiasF xF xF
  let ssym := covBiasF y y
  let ssxym := covBiasF xF y
  let r := if ssxm = FloatVal.real 0 ∨ ssym = FloatVal.real 0 then FloatVal.real 0
           else clampF (fvDiv ssxym (sqrtF (fvMul ssxm ssym)))
  let slope := fvDiv ssxym ssxm
  ⟨slope, fvSub (fvMean y) (fvMul slope (fvMean xF)), r, pval r y.length⟩

/-- Model of `scipy.stats.linregress(x, y)`: raises on empty input and on an
identically constant x of more than one point, otherwise returns the
regression statistics (it does not raise on NaN values in y). -/
noncomputable def linregress (pval : FloatVal → ℕ → FloatVal) (x : List ℝ)
    (y : List FloatVal) : Except PyError TrendStats :=
  if x.length = 0 ∨ y.length = 0 then
    Except.error (PyError.valueError "Inputs must not be empty.")
  else if 1 < x.length ∧ x.all (fun a => decide (a = x.headD 0)) then
    Except.error
      (PyError.valueError "Cannot calculate a linear regression if all x values are identical")
  else Except.ok (linStats pval x y)

/-- The dictionary returned by `analyze_trends`: the trend statistics,
plus the seasonal and residual components when decomposition ran. -/
structure TrendResults where
  trend : TrendStats
  seasonal : Option (List FloatVal)
  residual : Option (List FloatVal)

/-- The diagnostic notice printed when fewer than 24 resampled points
exist. -/
def warnMsg (n : ℕ) : String :=
  "Warning: Not enough data for seasonal decomposition. Need at least 24 observations, but only have " ++ toString n ++ "."

/-- Common continuation of `analyze_trends` after resampling: linear
regression on the zero-based positions, then seasonal decomposition when
at least 24 points exist, else the printed notice (returned alongside
the result as the list of emitted notices). `statsmodels`'
`seasonal_decompose` first rejects non-finite input — reachable when a
gapped index produced an empty (NaN) bin — and is otherwise abstracted
as `decomp`. -/
noncomputable def analyzeCont (decomp : List FloatVal → ℕ → List FloatVal × List FloatVal)
    (pval : FloatVal → ℕ → FloatVal) (rs : List FloatVal) :
    Except PyError (TrendResults × List String) :=
  match linregress pval (natCastRange rs.length) rs with
  | Except.error e => Except.error e
  | Except.ok st =>
      if 24 ≤ rs.length then
        if rs.all FloatVal.isFinite then
          Except.ok (⟨st, some (decomp rs 12).1, some (decomp rs 12).2⟩, [])
        else
          Except.error (PyError.valueError "This function does not handle missing values")
      else
        Except.ok (⟨st, none, none⟩, [warnMsg rs.length])

/-- Model of `analyze_trends(data, variable, time_period)`: resample the chosen
column to monthly or yearly means, fit the trend, decompose when enough
points exist. `decomp` stands for `seasonal_decompose` and `pval` for
the t-distribution tail used for the p-value. -/
noncomputable def analyze_trends (decomp : List FloatVal → ℕ → List FloatVal × List FloatVal)
    (pval : FloatVal → ℕ → FloatVal) (data : DFrame) (varName : String)
    (time_period : String) : Except PyError (TrendResults × List String) :=
  if time_period = "monthly" then
    match data.getCol varName with
    | none => Except.error (PyError.keyError varName)
    | some col => analyzeCont decomp pval (monthlyMeans (data.index.zip col))
  else if time_period = "yearly" then
    match data.getCol varName with
    | none => Except.error (PyError.keyError varName)
    | some col => analyzeCont decomp pval (yearlyMeans (data.index.zip col))
  else
    Except.error (PyError.valueError "Unsupported time period")

/-- The series `analyze_trends` internally resamples to, for stating
properties of the fitted trend ([] when the column or period is bad). -/
noncomputable def resampledOf (data : DFrame) (varName : String)
    (time_period : String) : List FloatVal :=
  match data.getCol varName with
  | none => []
  | some col =>
      if time_period = "monthly" then monthlyMeans (data.index.zip col)
      else if time_period = "yearly" then yearlyMeans (data.index.zip col)
      else []

/-- A rendered figure, recorded as what the branch plots. -/
inductive Figure where
  | line (varName : String) (idx : List Date) (values : List ℝ)
  | heatmap (varName : String) (months : List ℕ) (values : List ℝ)
  | boxplot (varName : String) (months : List ℕ) (values : List ℝ)

/-- Model of `kwargs.get('variable', data.columns[0])`: the default is evaluated
eagerly, so an empty frame raises IndexError even when a variable was
passed. -/
def chooseVar (data : DFrame) (varQ : Option String) : Except PyError String :=
  match data.columnNames.head? with
  | none => Except.error (PyError.indexError "index 0 is out of bounds")
  | some c0 => Except.ok (varQ.getD c0)

/-- Model of `visualize_data(data, plot_type, **kwargs)`: dispatch on the
plot-type tag; the figure records what would be drawn. -/
def visualize_data (data : DFrame) (plot_type : String) (varQ : Option String) :
    Except PyError Figure :=
  if plot_type = "line" then
    match chooseVar data varQ with
    | Except.error e => Except.error e
    | Except.ok v =>
        match data.getCol v with
        | none => Except.error (PyError.keyError v)
        | some col => Except.ok (Figure.line v data.index col)
  else if plot_type = "heatmap" then
    match chooseVar data varQ with
    | Except.error e => Except.error e
    | Except.ok v =>
        match data.getCol v with
        | none => Except.error (PyError.keyError v)
        | some col => Except.ok (Figure.heatmap v (data.index.map Date.m) col)
  else if plot_type = "boxplot" then
    match chooseVar data varQ with
    | Except.error e => Except.error e
    | Except.ok v =>
        match data.getCol v with
        | none => Except.error (PyError.keyError v)
        | some col => Except.ok (Figure.boxplot v (data.index.map Date.m) col)
  else
    Except.error (PyError.valueError "Unsupported plot type")

/-- A raw index entry, before coercion: already a date, an integer
(pandas default range index), or a string. -/
inductive IdxVal where
  | date (d : ℤ)
  | int (n : ℤ)
  | str (s : String)
deriving DecidableEq

/-- Whether an entry already is a datetime. -/
def IdxVal.isDate : IdxVal → Bool
  | IdxVal.date _ => true
  | _ => false

/-- A raw frame as a pandas reader produces it: index entries, column
names, and one row of optional (possibly missing) values per index
entry. -/
structure RawFrame where
  index : List IdxVal
  colNames : List String
  rows : List (List (Option ℝ))

/-- Model of `pd.to_datetime` on one index entry: dates kept, integers
reinterpreted as timestamps, strings parsed by `parse`. -/
def toDatetime (parse : String → Option ℤ) : IdxVal → Option ℤ
  | IdxVal.date d => some d
  | IdxVal.int n => some n
  | IdxVal.str s => parse s

/-- Model of `df.dropna()`: drop every row containing any missing value. -/
def dropna (f : RawFrame) : RawFrame :=
  let kept := (f.index.zip f.rows).filter (fun p => p.2.all Option.isSome)
  ⟨kept.map Prod.fst, f.colNames, kept.map Prod.snd⟩

/-- Model of `import_data(file_path, file_type)`: dispatch on the format tag
(reading the file is I/O; `df` is the frame the pandas reader produced
for it), coerce the index to datetime unless it already is one, drop
rows with missing values. -/
def import_data (parse : String → Option ℤ) (df : RawFrame) (file_type : String) :
    Except PyError RawFrame :=
  if file_type = "csv" ∨ file_type = "json" ∨ file_type = "excel" then
    if df.index.all IdxVal.isDate then Except.ok (dropna df)
    else
      match df.index.mapM (toDatetime parse) with
      | some ds => Except.ok (dropna ⟨ds.map IdxVal.date, df.colNames, df.rows⟩)
      | none => Except.error (PyError.valueError "could not convert index to datetime")
  else
    Except.error (PyError.valueError "Unsupported file type")

/-- Gregorian leap year. -/
def isLeap (y : ℕ) : Bool :=
  (y % 4 == 0 && y % 100 != 0) || y % 400 == 0

/-- Days in a calendar month. -/
def monthLen (y m : ℕ) : ℕ :=
  if m = 2 then (if isLeap y then 29 else 28)
  else if m = 4 ∨ m = 6 ∨ m = 9 ∨ m = 11 then 30
  else 31

/-- The next calendar day. -/
def nextDay (dt : Date) : Date :=
  if dt.d < monthLen dt.y dt.m then ⟨dt.y, dt.m, dt.d + 1⟩
  else if dt.m < 12 then ⟨dt.y, dt.m + 1, 1⟩
  else ⟨dt.y + 1, 1, 1⟩

/-- Model of `pd.date_range(start, periods=n, freq='D')`: n consecutive days. -/
def dateRange (dt : Date) : ℕ → List Date
  | 0 => []
  | n + 1 => dt :: dateRange (nextDay dt) n

/-- Largest value of a list of observations (0 for an empty list). -/
noncomputable def listMax (xs : List ℝ) : ℝ :=
  xs.foldr max 0

/-- The effective temperature series the GDD computation observes:
the 'temperature' column, else the mean of 'temp_max' and 'temp_min'. -/
noncomputable def observedTemps (df : DFrame) : List ℝ :=
  match df.getCol "temperature" with
  | some t => t
  | none =>
      match df.getCol "temp_max", df.getCol "temp_min" with
      | some a, some b => List.zipWith (fun x y => (x + y) / 2) a b
      | _, _ => []

/-! ### Helper lemmas -/

lemma getCol_eq_none (df : DFrame) (s : String) (h : s ∉ df.columnNames) :
    df.getCol s = none := by
  have hf : df.cols.find? (fun c => c.1 == s) = none := by
    rw [List.find?_eq_none]
    intro c hc
    simp only [beq_iff_eq]
    intro hcs
    exact h (List.mem_map.2 ⟨c, hc, hcs⟩)
  simp [DFrame.getCol, hf]

lemma getCol_mem (df : DFrame) (s : String) (h : s ∈ df.columnNames) :
    ∃ xs, df.getCol s = some xs := by
  obtain ⟨c, hc, hcs⟩ := List.mem_map.1 h
  have hsome : (df.cols.find? (fun c => c.1 == s)).isSome := by
    rw [List.find?_isSome]
    exact ⟨c, hc, by simp [hcs]⟩
  obtain ⟨p, hp⟩ := Option.isSome_iff_exists.1 hsome
  exact ⟨p.2, by simp [DFrame.getCol, hp]⟩

lemma cumsumFrom_head (acc : ℝ) (xs : List ℝ) (h : ∀ x ∈ xs, 0 ≤ x) :
    ∀ y ∈ (cumsumFrom acc xs).head?, acc ≤ y := by
  cases xs with
  | nil => simp [cumsumFrom]
  | cons x xs =>
      have hx : 0 ≤ x := h x (by simp)
      simp only [cumsumFrom, List.head?_cons, Option.mem_def, Option.some.injEq]
      rintro y rfl
      linarith

lemma cumsumFrom_chain (acc : ℝ) (xs : List ℝ) (h : ∀ x ∈ xs, 0 ≤ x) :
    List.Chain' (· ≤ ·) (cumsumFrom acc xs) := by
  induction xs generalizing acc with
  | nil => simp [cumsumFrom]
  | cons x xs ih =>
      rw [cumsumFrom, List.chain'_cons']
      refine ⟨cumsumFrom_head (acc + x) xs ?_, ih (acc + x) ?_⟩ <;>
        exact fun z hz => h z (by simp [hz])

lemma forall_mem_zipWith {α β γ : Type} {f : α → β → γ} {P : γ → Prop}
    (h : ∀ a b, P (f a b)) :
    ∀ l1 : List α, ∀ l2 : List β, ∀ x ∈ List.zipWith f l1 l2, P x := by
  intro l1
  induction l1 with
  | nil => simp
  | cons a l ih =>
      intro l2
      cases l2 with
      | nil => simp
      | cons b l2 =>
          intro x hx
          rcases (List.mem_cons).1 hx with hx | hx
          · exact hx ▸ h a b
          · exact ih l2 x hx

lemma fvLe_real (a b : ℝ) : fvLe (FloatVal.real a) (FloatVal.real b) ↔ a ≤ b := by
  constructor
  · rintro ⟨x, y, hx, hy, hxy⟩
    cases hx
    cases hy
    exact hxy
  · intro hab
    exact ⟨a, b, rfl, rfl, hab⟩

lemma chain_fvLe_map (l : List ℝ) (h : List.Chain' (· ≤ ·) l) :
    List.Chain' fvLe (l.map FloatVal.real) := by
  rw [List.chain'_map]
  exact h.imp (fun a b hab => (fvLe_real a b).2 hab)

/-! ### C1: SPI -/

/-- C1: for every table containing a 'precipitation' column,
`calculate_climate_index` with tag 'SPI' returns a series named "SPI"
aligned to the table's full date index, each point being
(value − full-series mean) / full-series standard deviation of the
precipitation column. -/
theorem spi_zscore (df : DFrame) (params : Option ℝ)
    (h : "precipitation" ∈ df.columnNames) :
    ∃ xs, df.getCol "precipitation" = some xs ∧
      calculate_climate_index df "SPI" params =
        Except.ok ⟨"SPI", df.index,
          xs.map (fun x => divByStd (x - listMean xs) (sampleStd xs))⟩ := by
  obtain ⟨xs, hxs⟩ := getCol_mem df "precipitation" h
  exact ⟨xs, hxs, by simp [calculate_climate_index, hxs, spiValues]⟩

/-- Witness for C1 on precipitation [0, 2, 4]: mean 2, sample standard
deviation 2, z-scores [-1, 0, 1]. -/
theorem spi_zscore_witness :
    calculate_climate_index ⟨dateRange ⟨2020, 1, 1⟩ 3, [("precipitation", [0, 2, 4])]⟩
        "SPI" none =
      Except.ok ⟨"SPI", dateRange ⟨2020, 1, 1⟩ 3,
        [FloatVal.real (-1), FloatVal.real 0, FloatVal.real 1]⟩ := by
  obtain ⟨xs, hxs, hres⟩ :=
    spi_zscore ⟨dateRange ⟨2020, 1, 1⟩ 3, [("precipitation", [0, 2, 4])]⟩ none
      (by simp [DFrame.columnNames])
  have hxs2 : (DFrame.mk (dateRange ⟨2020, 1, 1⟩ 3)
      [("precipitation", [0, 2, 4])]).getCol "precipitation" = some [(0 : ℝ), 2, 4] := by
    simp [DFrame.getCol]
  rw [hxs2] at hxs
  have hx : [(0 : ℝ), 2, 4] = xs := Option.some_inj.mp hxs
  subst hx
  rw [hres]
  have hsqrt : Real.sqrt 4 = 2 := by
    rw [show (4 : ℝ) = 2 ^ 2 by norm_num]
    exact Real.sqrt_sq (by norm_num)
  have hmean : listMean [(0 : ℝ), 2, 4] = 2 := by
    norm_num [listMean]
  have hstd : sampleStd [(0 : ℝ), 2, 4] = FloatVal.real 2 := by
    rw [sampleStd]
    norm_num [hmean, hsqrt]
  simp only [List.map_cons, List.map_nil, hmean, hstd]
  norm_num [divByStd, fdivF]

/-! ### C2: GDD -/

/-- C2: `calculate_climate_index` with tag 'GDD' uses the 'temperature'
column as effective temperature, or the mean of 'temp_max' and
'temp_min' when those are present, and fails with a missing-data value
error when neither is available; it subtracts the base temperature
(default 10), floors negatives to zero, and returns the running
cumulative sum named "GDD" on the full date index. -/
theorem gdd_correct (df : DFrame) (params : Option ℝ) :
    (∀ t, df.getCol "temperature" = some t →
      calculate_climate_index df "GDD" params =
        Except.ok ⟨"GDD", df.index,
          (cumsum (t.map (fun x => max (x - params.getD 10) 0))).map FloatVal.real⟩) ∧
    (df.getCol "temperature" = none →
      ∀ tmax tmin, df.getCol "temp_max" = some tmax → df.getCol "temp_min" = some tmin →
        calculate_climate_index df "GDD" params =
          Except.ok ⟨"GDD", df.index,
            (cumsum (List.zipWith (fun a b => max ((a + b) / 2 - params.getD 10) 0)
              tmax tmin)).map FloatVal.real⟩) ∧
    ("temperature" ∉ df.columnNames →
      ¬("temp_max" ∈ df.columnNames ∧ "temp_min" ∈ df.columnNames) →
        calculate_climate_index df "GDD" params =
          Except.error
            (PyError.valueError "Required temperature data not found in the DataFrame")) := by
  refine ⟨fun t ht => ?_, fun hn tmax tmin hmax hmin => ?_, fun hn hpair => ?_⟩
  · simp [calculate_climate_index, ht, gddValues]
  · simp [calculate_climate_index, hn, hmax, hmin]
  · have hn' : df.getCol "temperature" = none := getCol_eq_none df _ hn
    rcases not_and_or.1 hpair with hmax | hmin
    · have h1 : df.getCol "temp_max" = none := getCol_eq_none df _ hmax
      cases h2 : df.getCol "temp_min" <;>
        simp [calculate_climate_index, hn', h1, h2]
    · have h1 : df.getCol "temp_min" = none := getCol_eq_none df _ hmin
      cases h2 : df.getCol "temp_max" <;>
        simp [calculate_climate_index, hn', h1, h2]

/-- Witness for C2 on temperatures [15, 20] with the default base 10:
floored excesses [5, 10], cumulative sum [5, 15]. -/
theorem gdd_correct_witness :
    calculate_climate_index ⟨dateRange ⟨2020, 1, 1⟩ 2, [("temperature", [15, 20])]⟩
        "GDD" none =
      Except.ok ⟨"GDD", dateRange ⟨2020, 1, 1⟩ 2,
        [FloatVal.real 5, FloatVal.real 15]⟩ := by
  have h := (gdd_correct ⟨dateRange ⟨2020, 1, 1⟩ 2, [("temperature", [15, 20])]⟩ none).1
    [(15 : ℝ), 20] (by simp [DFrame.getCol])
  rw [h]
  have h5 : max ((15 : ℝ) - (none : Option ℝ).getD 10) 0 = 5 := by
    norm_num
  have h10 : max ((20 : ℝ) - (none : Option ℝ).getD 10) 0 = 10 := by
    norm_num
  simp only [List.map_cons, List.map_nil, h5, h10, cumsum, cumsumFrom]
  norm_num

/-! ### C3: GDD is monotone -/

/-- C3: for every table with the required temperature column(s) and
every base temperature at most the maximum observed temperature, the
series returned by tag 'GDD' is monotonically non-decreasing. -/
theorem gdd_monotone (df : DFrame) (params : Option ℝ)
    (h1 : "temperature" ∈ df.columnNames ∨
      ("temp_max" ∈ df.columnNames ∧ "temp_min" ∈ df.columnNames))
    (h2 : params.getD 10 ≤ listMax (observedTemps df)) :
    ∃ s, calculate_climate_index df "GDD" params = Except.ok s ∧
      List.Chain' fvLe s.values := by
  cases ht : df.getCol "temperature" with
  | some t =>
      refine ⟨_, (gdd_correct df params).1 t ht, ?_⟩
      exact chain_fvLe_map _ (cumsumFrom_chain 0 _ (by
        intro x hx
        obtain ⟨a, _, rfl⟩ := List.mem_map.1 hx
        exact le_max_right _ _))
  | none =>
      have hpair : "temp_max" ∈ df.columnNames ∧ "temp_min" ∈ df.columnNames := by
        rcases h1 with h | h
        · obtain ⟨xs, hxs⟩ := getCol_mem df _ h
          rw [ht] at hxs
          exact absurd hxs (by simp)
        · exact h
      obtain ⟨tmax, hmax⟩ := getCol_mem df _ hpair.1
      obtain ⟨tmin, hmin⟩ := getCol_mem df _ hpair.2
      refine ⟨_, (gdd_correct df params).2.1 ht tmax tmin hmax hmin, ?_⟩
      exact chain_fvLe_map _ (cumsumFrom_chain 0 _
        (forall_mem_zipWith (fun a b => le_max_right _ _) tmax tmin))

/-- Witness for C3: temperatures [15, 20], default base 10, maximum
observed temperature 20 ≥ 10; the GDD series is non-decreasing. -/
theorem gdd_monotone_witness :
    ∃ s, calculate_climate_index ⟨dateRange ⟨2020, 1, 1⟩ 2, [("temperature", [15, 20])]⟩
        "GDD" none = Except.ok s ∧ List.Chain' fvLe s.values :=
  gdd_monotone ⟨dateRange ⟨2020, 1, 1⟩ 2, [("temperature", [15, 20])]⟩ none
    (Or.inl (by simp [DFrame.columnNames]))
    (by
      have : observedTemps ⟨dateRange ⟨2020, 1, 1⟩ 2, [("temperature", [15, 20])]⟩
          = [(15 : ℝ), 20] := by
        simp [observedTemps, DFrame.getCol]
      rw [this]
      norm_num [listMax])

/-! ### C7: missing required columns -/

/-- C7: tag 'SPI' on a table lacking a 'precipitation' column fails
with a value error, and tag 'GDD' on a table lacking both a
'temperature' column and the 'temp_max'/'temp_min' pair fails with a
value error. -/
theorem index_missing_column_errors (df : DFrame) (params : Option ℝ) :
    ("precipitation" ∉ df.columnNames →
      calculate_climate_index df "SPI" params =
        Except.error (PyError.valueError "Precipitation data not found in the DataFrame")) ∧
    ("temperature" ∉ df.columnNames →
      ¬("temp_max" ∈ df.columnNames ∧ "temp_min" ∈ df.columnNames) →
      calculate_climate_index df "GDD" params =
        Except.error
          (PyError.valueError "Required temperature data not found in the DataFrame")) := by
  refine ⟨fun h => ?_, fun hn hpair => (gdd_correct df params).2.2 hn hpair⟩
  have h' : df.getCol "precipitation" = none := getCol_eq_none df _ h
  simp [calculate_climate_index, h']

/-- Witness for C7 on a frame whose only column is 'humidity'. -/
theorem index_missing_column_errors_witness :
    calculate_climate_index ⟨[], [("humidity", [])]⟩ "SPI" none =
      Except.error (PyError.valueError "Precipitation data not found in the DataFrame") ∧
    calculate_climate_index ⟨[], [("humidity", [])]⟩ "GDD" none =
      Except.error
        (PyError.valueError "Required temperature data not found in the DataFrame") :=
  ⟨(index_missing_column_errors ⟨[], [("humidity", [])]⟩ none).1
      (by simp [DFrame.columnNames]),
   (index_missing_column_errors ⟨[], [("humidity", [])]⟩ none).2
      (by simp [DFrame.columnNames]) (by simp [DFrame.columnNames])⟩

/-! ### C10: degenerate SPI -/

/-- C10: on a table whose 'precipitation' column is degenerate
(constant values — zero full-series standard deviation — or a single
row), tag 'SPI' does not raise: the unguarded division yields a series
named "SPI" whose values are all NaN. -/
theorem spi_degenerate_nan (df : DFrame) (params : Option ℝ) (xs : List ℝ)
    (hxs : df.getCol "precipitation" = some xs)
    (hdeg : (∃ c, ∀ x ∈ xs, x = c) ∨ xs.length = 1) :
    ∃ s, calculate_climate_index df "SPI" params = Except.ok s ∧
      s.name = "SPI" ∧ ∀ v ∈ s.values, v = FloatVal.nan := by
  refine ⟨⟨"SPI", df.index, spiValues xs⟩, by simp [calculate_climate_index, hxs], rfl, ?_⟩
  intro v hv
  obtain ⟨x, hx, rfl⟩ := List.mem_map.1 hv
  by_cases hlen : xs.length ≤ 1
  · simp [sampleStd, hlen, divByStd]
  · rcases hdeg with ⟨c, hc⟩ | h1
    · have hn : (xs.length : ℝ) ≠ 0 := by
        have : xs.length ≠ 0 := by omega
        exact_mod_cast this
      have hmean : listMean xs = c := by
        rw [listMean, List.sum_eq_card_nsmul xs c hc, nsmul_eq_mul]
        field_simp
      have hx0 : x - listMean xs = 0 := by
        rw [hmean, hc x hx, sub_self]
      have hvar : (xs.map (fun z => (z - listMean xs) ^ 2)).sum = 0 := by
        apply List.sum_eq_zero
        intro y hy
        obtain ⟨z, hz, rfl⟩ := List.mem_map.1 hy
        rw [hmean, hc z hz, sub_self]
        ring
      have hstd : sampleStd xs = FloatVal.real 0 := by
        rw [sampleStd, if_neg hlen, hvar, zero_div, Real.sqrt_zero]
      rw [hx0, hstd]
      simp [divByStd, fdivF]
    · exact absurd h1 (by omega)

/-- Witness for C10 on the constant precipitation column [3, 3]. -/
theorem spi_degenerate_nan_witness :
    ∃ s, calculate_climate_index ⟨dateRange ⟨2020, 1, 1⟩ 2, [("precipitation", [3, 3])]⟩
        "SPI" none = Except.ok s ∧ s.name = "SPI" ∧ ∀ v ∈ s.values, v = FloatVal.nan :=
  spi_degenerate_nan ⟨dateRange ⟨2020, 1, 1⟩ 2, [("precipitation", [3, 3])]⟩ none
    [3, 3] (by simp [DFrame.getCol]) (Or.inl ⟨3, by simp⟩)

/-! ### C6: unsupported tags -/

/-- C6: every operation fails immediately with a value error on a tag
outside its recognized set: `import_data` for a file type other than
csv/json/excel, `analyze_trends` for a period other than
monthly/yearly, `visualize_data` for a plot type other than
line/heatmap/boxplot, and `calculate_climate_index` for an index type
other than SPI/GDD. -/
theorem unsupported_tag_errors (parse : String → Option ℤ) (raw : RawFrame)
    (df : DFrame) (params : Option ℝ) (varQ : Option String)
    (decomp : List FloatVal → ℕ → List FloatVal × List FloatVal)
    (pval : FloatVal → ℕ → FloatVal)
    (v ft p pt it : String) :
    (ft ≠ "csv" → ft ≠ "json" → ft ≠ "excel" →
      import_data parse raw ft = Except.error (PyError.valueError "Unsupported file type")) ∧
    (p ≠ "monthly" → p ≠ "yearly" →
      analyze_trends decomp pval df v p =
        Except.error (PyError.valueError "Unsupported time period")) ∧
    (pt ≠ "line" → pt ≠ "heatmap" → pt ≠ "boxplot" →
      visualize_data df pt varQ =
        Except.error (PyError.valueError "Unsupported plot type")) ∧
    (it ≠ "SPI" → it ≠ "GDD" →
      calculate_climate_index df it params =
        Except.error (PyError.valueError "Unsupported climate index")) := by
  refine ⟨fun h1 h2 h3 => ?_, fun h1 h2 => ?_, fun h1 h2 h3 => ?_, fun h1 h2 => ?_⟩
  · rw [import_data, if_neg]
    simp [h1, h2, h3]
  · rw [analyze_trends, if_neg h1, if_neg h2]
  · rw [visualize_data, if_neg h1, if_neg h2, if_neg h3]
  · rw [calculate_climate_index, if_neg h1, if_neg h2]

/-- Witness for C6 at the tags "xml", "weekly", "scatter", "PDSI". -/
theorem unsupported_tag_errors_witness :
    import_data (fun _ => none) ⟨[], [], []⟩ "xml" =
      Except.error (PyError.valueError "Unsupported file type") ∧
    analyze_trends (fun _ _ => ([], [])) (fun _ _ => FloatVal.real 0) ⟨[], []⟩
        "temperature" "weekly" =
      Except.error (PyError.valueError "Unsupported time period") ∧
    visualize_data ⟨[], []⟩ "scatter" none =
      Except.error (PyError.valueError "Unsupported plot type") ∧
    calculate_climate_index ⟨[], []⟩ "PDSI" none =
      Except.error (PyError.valueError "Unsupported climate index") := by
  have h := unsupported_tag_errors (fun _ => none) ⟨[], [], []⟩ ⟨[], []⟩ none none
    (fun _ _ => ([], [])) (fun _ _ => FloatVal.real 0)
    "temperature" "xml" "weekly" "scatter" "PDSI"
  exact ⟨h.1 (by decide) (by decide) (by decide),
    h.2.1 (by decide) (by decide),
    h.2.2.1 (by decide) (by decide) (by decide),
    h.2.2.2 (by decide) (by decide)⟩

/-! ### C8: imported tables are clean -/

/-- C8: every table returned by `import_data` from a well-formed file
with a supported format tag has zero missing values (every row with any
missing value is dropped) and a date-typed row index, never a raw
string. -/
theorem import_clean (parse : String → Option ℤ) (df : RawFrame) (ft : String)
    (out : RawFrame) (h : import_data parse df ft = Except.ok out) :
    (∀ r ∈ out.rows, ∀ c ∈ r, c.isSome) ∧ (∀ v ∈ out.index, v.isDate) := by
  rw [import_data] at h
  split_ifs at h with hft hdate
  · -- index already datetime
    injection h with hout
    subst hout
    constructor
    · intro r hr c hc
      obtain ⟨q, hq, rfl⟩ := List.mem_map.1 hr
      have := List.of_mem_filter hq
      exact List.all_eq_true.1 this c hc
    · intro v hv
      obtain ⟨q, hq, rfl⟩ := List.mem_map.1 hv
      have hq' : q ∈ df.index.zip df.rows := List.mem_of_mem_filter hq
      have hmem : q.1 ∈ df.index := by
        obtain ⟨a, b⟩ := q
        exact (List.of_mem_zip hq').1
      exact List.all_eq_true.1 hdate q.1 hmem
  · -- index coerced to datetime
    cases hm : df.index.mapM (toDatetime parse) with
    | none => rw [hm] at h; cases h
    | some ds =>
        rw [hm] at h
        injection h with hout
        subst hout
        constructor
        · intro r hr c hc
          obtain ⟨q, hq, rfl⟩ := List.mem_map.1 hr
          have := List.of_mem_filter hq
          exact List.all_eq_true.1 this c hc
        · intro v hv
          obtain ⟨q, hq, rfl⟩ := List.mem_map.1 hv
          have hq' : q ∈ (ds.map IdxVal.date).zip df.rows := List.mem_of_mem_filter hq
          have hmem : q.1 ∈ ds.map IdxVal.date := by
            obtain ⟨a, b⟩ := q
            exact (List.of_mem_zip hq').1
          obtain ⟨d, -, hd⟩ := List.mem_map.1 hmem
          rw [← hd]
          exact rfl

/-- Witness for C8 on a one-row csv frame with a date index and no
missing values. -/
theorem import_clean_witness :
    (∀ r ∈ (RawFrame.mk [IdxVal.date 0] ["temperature"] [[some (1 : ℝ)]]).rows,
      ∀ c ∈ r, c.isSome) ∧
    (∀ v ∈ (RawFrame.mk [IdxVal.date 0] ["temperature"] [[some (1 : ℝ)]]).index,
      v.isDate) :=
  import_clean (fun _ => none) ⟨[IdxVal.date 0], ["temperature"], [[some (1 : ℝ)]]⟩ "csv"
    ⟨[IdxVal.date 0], ["temperature"], [[some (1 : ℝ)]]⟩ (by
      rw [import_data, if_pos (Or.inl rfl)]
      simp [dropna, IdxVal.isDate])

/-! ### Regression and resampling infrastructure -/

lemma natCastRange_length (n : ℕ) : (natCastRange n).length = n := by
  rw [natCastRange, List.length_map, List.length_range]

lemma natCastRange_headD (n : ℕ) (h : 1 ≤ n) : (natCastRange n).headD 0 = 0 := by
  obtain ⟨m, rfl⟩ := Nat.exists_eq_add_of_le h
  rw [natCastRange, Nat.add_comm, List.range_succ_eq_map]
  simp

lemma natCastRange_getD (n i : ℕ) (h : i < n) : (natCastRange n).getD i 0 = i := by
  rw [List.getD_eq_getElem _ _ (by rw [natCastRange_length]; omega)]
  simp only [natCastRange, List.getElem_map, List.getElem_range]

lemma list_range_map_sum (f : ℕ → ℝ) (n : ℕ) :
    ((List.range n).map f).sum = ∑ i ∈ Finset.range n, f i := by
  induction n with
  | zero => simp
  | succ n ih =>
      rw [List.range_succ, List.map_append, List.sum_append, Finset.sum_range_succ, ih]
      simp

lemma sum_range_cast (n : ℕ) : ∑ i ∈ Finset.range n, (i : ℝ) = n * (n - 1) / 2 := by
  induction n with
  | zero => simp
  | succ n ih =>
      rw [Finset.sum_range_succ, ih]
      push_cast
      ring

lemma natCastRange_mean (n : ℕ) (h : 1 ≤ n) :
    listMean (natCastRange n) = ((n : ℝ) - 1) / 2 := by
  have hn : (n : ℝ) ≠ 0 := by
    have : n ≠ 0 := by omega
    exact_mod_cast this
  rw [listMean, natCastRange, list_range_map_sum, sum_range_cast]
  rw [List.length_map, List.length_range]
  field_simp
  ring

lemma zipWith_sum_eq (f : ℝ → ℝ → ℝ) (x y : List ℝ) (h : x.length = y.length) :
    (List.zipWith f x y).sum = ∑ i ∈ Finset.range x.length, f (x.getD i 0) (y.getD i 0) := by
  induction x generalizing y with
  | nil => simp
  | cons a x ih =>
      cases y with
      | nil => simp at h
      | cons b y =>
          have h' : x.length = y.length := by simpa using h
          rw [List.zipWith_cons_cons, List.sum_cons, List.length_cons,
            Finset.sum_range_succ', ih y h']
          simp [add_comm]

lemma linregress_ok (pval : FloatVal → ℕ → FloatVal) (y : List FloatVal) (h1 : 1 ≤ y.length) :
    linregress pval (natCastRange y.length) y =
      Except.ok (linStats pval (natCastRange y.length) y) := by
  have hA : ¬((natCastRange y.length).length = 0 ∨ y.length = 0) := by
    rw [natCastRange_length]
    omega
  have hB : ¬(1 < (natCastRange y.length).length ∧
      (natCastRange y.length).all
        (fun a => decide (a = (natCastRange y.length).headD 0)) = true) := by
    rintro ⟨hlt, hall⟩
    rw [natCastRange_length] at hlt
    have h1m : (1 : ℝ) ∈ natCastRange y.length :=
      List.mem_map.2 ⟨1, List.mem_range.2 hlt, by norm_num⟩
    have h10 := of_decide_eq_true (List.all_eq_true.1 hall 1 h1m)
    rw [natCastRange_headD _ h1] at h10
    norm_num at h10
  rw [linregress, if_neg hA, if_neg hB]

lemma analyzeCont_eq (decomp : List FloatVal → ℕ → List FloatVal × List FloatVal)
    (pval : FloatVal → ℕ → FloatVal) (rs : List FloatVal) (h1 : 1 ≤ rs.length)
    (hfin : rs.length < 24 ∨ rs.all FloatVal.isFinite = true) :
    analyzeCont decomp pval rs = Except.ok
      (⟨linStats pval (natCastRange rs.length) rs,
        if 24 ≤ rs.length then some (decomp rs 12).1 else none,
        if 24 ≤ rs.length then some (decomp rs 12).2 else none⟩,
       if 24 ≤ rs.length then [] else [warnMsg rs.length]) := by
  rw [analyzeCont, linregress_ok pval rs h1]
  by_cases h24 : 24 ≤ rs.length
  · rcases hfin with h | hfin
    · omega
    · simp [h24, hfin]
  · simp [h24]

lemma analyzeCont_nonfinite (decomp : List FloatVal → ℕ → List FloatVal × List FloatVal)
    (pval : FloatVal → ℕ → FloatVal) (rs : List FloatVal) (h24 : 24 ≤ rs.length)
    (h : rs.all FloatVal.isFinite = false) :
    analyzeCont decomp pval rs =
      Except.error (PyError.valueError "This function does not handle missing values") := by
  rw [analyzeCont, linregress_ok pval rs (by omega)]
  simp [h24, h]

lemma analyze_eq (decomp : List FloatVal → ℕ → List FloatVal × List FloatVal)
    (pval : FloatVal → ℕ → FloatVal)
    (df : DFrame) (varName p : String) (col : List ℝ)
    (hp : p = "monthly" ∨ p = "yearly") (hc : df.getCol varName = some col) :
    analyze_trends decomp pval df varName p =
      analyzeCont decomp pval (resampledOf df varName p) := by
  rcases hp with rfl | rfl <;> simp [analyze_trends, resampledOf, hc]

lemma dateRange_length (dt : Date) (n : ℕ) : (dateRange dt n).length = n := by
  induction n generalizing dt with
  | zero => rfl
  | succ n ih => simp [dateRange, ih]

lemma isEmpty_eq_of_length_eq {α β : Type} (l : List α) (l' : List β)
    (h : l.length = l'.length) : l.isEmpty = l'.isEmpty := by
  cases l <;> cases l' <;> simp_all

lemma map_fst_zip_key (key : Date → ℕ) (l1 : List Date) (l2 : List ℝ)
    (h : l1.length ≤ l2.length) :
    (l1.zip l2).map (fun q => key q.1) = l1.map key := by
  have h2 : (l1.zip l2).map (fun q => key q.1) = ((l1.zip l2).map Prod.fst).map key := by
    rw [List.map_map]
    rfl
  rw [h2, List.map_fst_zip _ _ h]

lemma filter_fst_zip_length (P : Date → Bool) :
    ∀ (l1 : List Date) (l2 : List ℝ), l1.length ≤ l2.length →
      ((l1.zip l2).filter (fun q => P q.1)).length = (l1.filter P).length := by
  intro l1
  induction l1 with
  | nil => intro l2 h; simp
  | cons d ds ih =>
      intro l2 h
      cases l2 with
      | nil => simp at h
      | cons v vs =>
          have h' : ds.length ≤ vs.length := by simpa using h
          rw [List.zip_cons_cons]
          simp only [List.filter_cons]
          by_cases hp : P d
          · simp [hp, ih vs h']
          · simp [hp, ih vs h']

lemma resampleBins_cons (idx : Date → ℕ) (d0 : Date) (v0 : ℝ) (ds : List Date)
    (vs : List ℝ) (hlen : ds.length ≤ vs.length) :
    resampleBins idx ((d0 :: ds).zip (v0 :: vs)) =
      (List.range (maxAcc (idx d0) ((d0 :: ds).map idx) + 1 -
          minAcc (idx d0) ((d0 :: ds).map idx))).map (fun k =>
        if ((d0 :: ds).filter (fun d => decide (idx d =
            minAcc (idx d0) ((d0 :: ds).map idx) + k))).isEmpty then FloatVal.nan
        else FloatVal.real (listMean ((((d0, v0) :: ds.zip vs).filter
          (fun q => decide (idx q.1 = minAcc (idx d0) ((d0 :: ds).map idx) + k))).map
            Prod.snd))) := by
  have hmap : ((d0, v0) :: ds.zip vs).map (fun q => idx q.1) = (d0 :: ds).map idx := by
    have h := map_fst_zip_key idx (d0 :: ds) (v0 :: vs) (by simpa using hlen)
    simpa using h
  rw [show (d0 :: ds).zip (v0 :: vs) = (d0, v0) :: ds.zip vs from rfl]
  simp only [resampleBins, hmap]
  apply List.map_congr_left
  intro k hk
  have hfil : ((((d0, v0) :: ds.zip vs).filter
      (fun q => decide (idx q.1 = minAcc (idx d0) ((d0 :: ds).map idx) + k))).map
        Prod.snd).isEmpty =
      ((d0 :: ds).filter (fun d => decide (idx d =
        minAcc (idx d0) ((d0 :: ds).map idx) + k))).isEmpty := by
    apply isEmpty_eq_of_length_eq
    rw [List.length_map]
    have h := filter_fst_zip_length
      (fun d => decide (idx d = minAcc (idx d0) ((d0 :: ds).map idx) + k))
      (d0 :: ds) (v0 :: vs) (by simpa using hlen)
    simpa using h
  rw [hfil]

lemma all_isFinite_map {α : Type} (l : List α) (c : α → Bool) (val : α → ℝ) :
    ((l.map (fun k => if c k then FloatVal.nan else FloatVal.real (val k))).all
      FloatVal.isFinite) = l.all (fun k => !(c k)) := by
  induction l with
  | nil => rfl
  | cons a t ih =>
      simp only [List.map_cons, List.all_cons, ih]
      by_cases hc : c a <;> simp [hc, FloatVal.isFinite]

lemma all_map_real_isFinite (l : List ℝ) :
    ((l.map FloatVal.real).all FloatVal.isFinite) = true := by
  induction l with
  | nil => rfl
  | cons a t ih => simp_all [FloatVal.isFinite]

lemma fvDiv_real (a b : ℝ) :
    fvDiv (FloatVal.real a) (FloatVal.real b) = fdivF a b := rfl

lemma fvSum_map_real (l : List ℝ) :
    fvSum (l.map FloatVal.real) = FloatVal.real l.sum := by
  induction l with
  | nil => rfl
  | cons a t ih =>
      rw [List.map_cons, fvSum, List.foldr_cons]
      show fvAdd (FloatVal.real a) (fvSum (t.map FloatVal.real)) = _
      rw [ih]
      rfl

lemma fvMean_map_real (l : List ℝ) (h : 1 ≤ l.length) :
    fvMean (l.map FloatVal.real) = FloatVal.real (listMean l) := by
  have hne : (l.length : ℝ) ≠ 0 := by
    have : l.length ≠ 0 := by omega
    exact_mod_cast this
  rw [fvMean, fvSum_map_real, List.length_map, fvDiv_real, fdivF, if_neg hne]
  rfl

lemma covBiasF_map_real (x y : List ℝ) (hx : 1 ≤ x.length) (hy : 1 ≤ y.length) :
    covBiasF (x.map FloatVal.real) (y.map FloatVal.real) = FloatVal.real (covBias x y) := by
  have hne : (x.length : ℝ) ≠ 0 := by
    have : x.length ≠ 0 := by omega
    exact_mod_cast this
  rw [covBiasF, fvMean_map_real x hx, fvMean_map_real y hy]
  have hz : List.zipWith (fun a b => fvMul (fvSub a (FloatVal.real (listMean x)))
      (fvSub b (FloatVal.real (listMean y)))) (x.map FloatVal.real) (y.map FloatVal.real) =
      (List.zipWith (fun a b => (a - listMean x) * (b - listMean y)) x y).map
        FloatVal.real := by
    rw [List.zipWith_map, List.map_zipWith]
    rfl
  rw [hz, fvSum_map_real, List.length_map, fvDiv_real, fdivF, if_neg hne]
  rfl

lemma fvLt_real (a b : ℝ) : fvLt (FloatVal.real a) (FloatVal.real b) ↔ a < b := by
  constructor
  · rintro ⟨x, y, hx, hy, hxy⟩
    cases hx
    cases hy
    exact hxy
  · intro hab
    exact ⟨a, b, rfl, rfl, hab⟩

lemma chain_fvLt_allreal :
    ∀ (rs : List FloatVal), 2 ≤ rs.length → List.Chain' fvLt rs →
      ∀ v ∈ rs, ∃ x, v = FloatVal.real x := by
  intro rs
  induction rs with
  | nil => intro h; simp at h
  | cons a t ih =>
      intro hlen hch v hv
      cases t with
      | nil => simp at hlen
      | cons b t' =>
          obtain ⟨hab, hcht⟩ := List.chain'_cons.1 hch
          obtain ⟨x, y, hxa, hyb, hxy⟩ := hab
          rcases List.mem_cons.1 hv with rfl | hv'
          · exact ⟨x, hxa⟩
          · cases t' with
            | nil =>
                rcases List.mem_cons.1 hv' with rfl | h'
                · exact ⟨y, hyb⟩
                · simp at h'
            | cons c t'' =>
                exact ih (by simp) hcht v hv'

lemma chain_fvLt_toReal (rs : List FloatVal) (h2 : 2 ≤ rs.length)
    (hch : List.Chain' fvLt rs) :
    rs = (rs.map FloatVal.toRealD).map FloatVal.real ∧
      List.Chain' (· < ·) (rs.map FloatVal.toRealD) := by
  have hall := chain_fvLt_allreal rs h2 hch
  have heq : rs = (rs.map FloatVal.toRealD).map FloatVal.real := by
    rw [List.map_map]
    have h := List.map_congr_left (l := rs)
      (f := fun v => FloatVal.real (FloatVal.toRealD v)) (g := fun v => v)
      (fun v hv => by obtain ⟨x, rfl⟩ := hall v hv; rfl)
    rw [show (FloatVal.real ∘ FloatVal.toRealD) = fun v => FloatVal.real (FloatVal.toRealD v)
      from rfl, h, List.map_id']
  refine ⟨heq, ?_⟩
  have hch' : List.Chain' fvLt ((rs.map FloatVal.toRealD).map FloatVal.real) := heq ▸ hch
  rw [List.chain'_map] at hch'
  exact hch'.imp (fun a b hab => (fvLt_real a b).1 hab)

/-! ### C4: decomposition present iff at least 24 resampled points -/

/-- C4 (amended): for every table, valid column and valid period tag
whose resampled series is nonempty, the decomposition fields are
present iff `analyze_trends` returned a result whose resampled series
has at least 24 bins: with 1 to 23 bins no error is raised — the
fields are omitted and a diagnostic notice naming the bin count is
emitted; with at least 24 all-finite bins the fields are populated;
with at least 24 bins of which some is empty (NaN, from a gap in the
dates), the decomposition itself raises a value error. (The original
claim, quantified over *every* table, fails on a table with zero rows:
the regression inside `analyze_trends` rejects empty input, see the
counterexample.) -/
theorem decomposition_iff_24 (decomp : List FloatVal → ℕ → List FloatVal × List FloatVal)
    (pval : FloatVal → ℕ → FloatVal) (df : DFrame) (varName period : String)
    (hp : period = "monthly" ∨ period = "yearly")
    (hv : varName ∈ df.columnNames)
    (h1 : 1 ≤ (resampledOf df varName period).length) :
    ((resampledOf df varName period).length < 24 →
      ∃ res, analyze_trends decomp pval df varName period =
          Except.ok (res, [warnMsg (resampledOf df varName period).length]) ∧
        res.seasonal = none ∧ res.residual = none) ∧
    (24 ≤ (resampledOf df varName period).length →
      (resampledOf df varName period).all FloatVal.isFinite = true →
      ∃ res, analyze_trends decomp pval df varName period = Except.ok (res, []) ∧
        res.seasonal.isSome ∧ res.residual.isSome) ∧
    (24 ≤ (resampledOf df varName period).length →
      (resampledOf df varName period).all FloatVal.isFinite = false →
      analyze_trends decomp pval df varName period =
        Except.error (PyError.valueError "This function does not handle missing values")) := by
  obtain ⟨col, hc⟩ := getCol_mem df varName hv
  rw [analyze_eq decomp pval df varName period col hp hc]
  refine ⟨fun hlt => ?_, fun h24 hfin => ?_, fun h24 hfin => ?_⟩
  · rw [analyzeCont_eq decomp pval _ h1 (Or.inl hlt)]
    have hn24 : ¬ 24 ≤ (resampledOf df varName period).length := by omega
    simp only [if_neg hn24]
    exact ⟨_, rfl, rfl, rfl⟩
  · rw [analyzeCont_eq decomp pval _ h1 (Or.inr hfin)]
    simp only [if_pos h24]
    exact ⟨_, rfl, rfl, rfl⟩
  · exact analyzeCont_nonfinite decomp pval _ h24 hfin

/-- Counterexample to C4 as stated: on a table with a 'temperature'
column but zero rows, the resampled series is empty (0 < 24 points) and
`analyze_trends` does raise — the regression rejects empty input. -/
theorem decomposition_empty_table_raises :
    analyze_trends (fun _ _ => ([], [])) (fun _ _ => FloatVal.real 0)
        ⟨[], [("temperature", [])]⟩ "temperature" "monthly" =
      Except.error (PyError.valueError "Inputs must not be empty.") := by
  have hc : DFrame.getCol ⟨[], [("temperature", [])]⟩ "temperature" = some [] := by
    simp [DFrame.getCol]
  have hrs : resampledOf ⟨[], [("temperature", [])]⟩ "temperature" "monthly" = [] := by
    simp [resampledOf, hc, monthlyMeans, resampleBins]
  rw [analyze_eq (fun _ _ => ([], [])) (fun _ _ => FloatVal.real 0) _ "temperature"
    "monthly" [] (Or.inl rfl) hc, hrs]
  simp [analyzeCont, linregress, natCastRange_length]

/-- Witness for C4 on a one-row table: one resampled bin, a result with
the fields absent, the notice naming the count. -/
theorem decomposition_iff_24_witness :
    ∃ res,
      analyze_trends (fun _ _ => ([], [])) (fun _ _ => FloatVal.real 0)
          ⟨[⟨2020, 1, 1⟩], [("temperature", [5])]⟩ "temperature" "monthly" =
        Except.ok (res, [warnMsg (resampledOf ⟨[⟨2020, 1, 1⟩], [("temperature", [5])]⟩
          "temperature" "monthly").length]) ∧
      res.seasonal = none ∧ res.residual = none := by
  have hr1 : resampledOf ⟨[⟨2020, 1, 1⟩], [("temperature", [5])]⟩ "temperature" "monthly" =
      [FloatVal.real (listMean [5])] := by
    simp [resampledOf, DFrame.getCol, monthlyMeans, resampleBins, minAcc, maxAcc,
      List.range_succ, List.filter]
  exact (decomposition_iff_24 (fun _ _ => ([], [])) (fun _ _ => FloatVal.real 0)
    ⟨[⟨2020, 1, 1⟩], [("temperature", [5])]⟩ "temperature" "monthly"
    (Or.inl rfl) (by simp [DFrame.columnNames])
    (by rw [hr1]; norm_num)).1 (by rw [hr1]; norm_num)

/-! ### C5: the 10-day and 3-year examples -/

set_option maxRecDepth 16000 in
/-- C5: a table of 10 days of daily data (starting 2020-01-01)
resampled monthly gives 1 bin: no error, decomposition fields absent,
and the printed notice mentions "1"; daily data for the three full
years 2020-2022 gives 36 monthly bins, all inhabited, and populated
decomposition fields. Quantified over the data values: the behaviour
depends only on the dates. -/
theorem resample_point_count_examples
    (decomp : List FloatVal → ℕ → List FloatVal × List FloatVal)
    (pval : FloatVal → ℕ → FloatVal) (t10 t3y : List ℝ)
    (h10 : t10.length = 10) (h3y : t3y.length = 1096) :
    ((resampledOf ⟨dateRange ⟨2020, 1, 1⟩ 10, [("temperature", t10)]⟩
        "temperature" "monthly").length = 1 ∧
      ∃ res notices,
        analyze_trends decomp pval ⟨dateRange ⟨2020, 1, 1⟩ 10, [("temperature", t10)]⟩
            "temperature" "monthly" = Except.ok (res, notices) ∧
        res.seasonal = none ∧ res.residual = none ∧
        ∃ pre post, notices = [pre ++ "1" ++ post]) ∧
    ((resampledOf ⟨dateRange ⟨2020, 1, 1⟩ 1096, [("temperature", t3y)]⟩
        "temperature" "monthly").length = 36 ∧
      ∃ res notices,
        analyze_trends decomp pval ⟨dateRange ⟨2020, 1, 1⟩ 1096, [("temperature", t3y)]⟩
            "temperature" "monthly" = Except.ok (res, notices) ∧
        res.seasonal.isSome ∧ res.residual.isSome) := by
  have hc10 : (DFrame.mk (dateRange ⟨2020, 1, 1⟩ 10) [("temperature", t10)]).getCol
      "temperature" = some t10 := by simp [DFrame.getCol]
  have hc3y : (DFrame.mk (dateRange ⟨2020, 1, 1⟩ 1096) [("temperature", t3y)]).getCol
      "temperature" = some t3y := by simp [DFrame.getCol]
  have he10 : resampledOf ⟨dateRange ⟨2020, 1, 1⟩ 10, [("temperature", t10)]⟩
      "temperature" "monthly" = monthlyMeans ((dateRange ⟨2020, 1, 1⟩ 10).zip t10) := by
    simp [resampledOf, hc10]
  have he3y : resampledOf ⟨dateRange ⟨2020, 1, 1⟩ 1096, [("temperature", t3y)]⟩
      "temperature" "monthly" = monthlyMeans ((dateRange ⟨2020, 1, 1⟩ 1096).zip t3y) := by
    simp [resampledOf, hc3y]
  cases t10 with
  | nil => simp at h10
  | cons v0 vs =>
  cases t3y with
  | nil => simp at h3y
  | cons w0 ws =>
  have hvs : vs.length = 9 := by simpa using h10
  have hws : ws.length = 1095 := by simpa using h3y
  have hd10 : dateRange ⟨2020, 1, 1⟩ 10 = ⟨2020, 1, 1⟩ :: dateRange ⟨2020, 1, 2⟩ 9 := by
    rw [show (10 : ℕ) = 9 + 1 from rfl, dateRange,
      show nextDay ⟨2020, 1, 1⟩ = ⟨2020, 1, 2⟩ from by decide]
  have hd3y : dateRange ⟨2020, 1, 1⟩ 1096 =
      ⟨2020, 1, 1⟩ :: dateRange ⟨2020, 1, 2⟩ 1095 := by
    rw [show (1096 : ℕ) = 1095 + 1 from rfl, dateRange,
      show nextDay ⟨2020, 1, 1⟩ = ⟨2020, 1, 2⟩ from by decide]
  have hb10 := resampleBins_cons (fun d => 12 * d.y + d.m) ⟨2020, 1, 1⟩ v0
    (dateRange ⟨2020, 1, 2⟩ 9) vs (by rw [dateRange_length, hvs])
  have hb3y := resampleBins_cons (fun d => 12 * d.y + d.m) ⟨2020, 1, 1⟩ w0
    (dateRange ⟨2020, 1, 2⟩ 1095) ws (by rw [dateRange_length, hws])
  have hlo10 : minAcc ((fun (d : Date) => 12 * d.y + d.m) ⟨2020, 1, 1⟩)
      ((⟨2020, 1, 1⟩ :: dateRange ⟨2020, 1, 2⟩ 9).map (fun d => 12 * d.y + d.m)) =
      24241 := by decide
  have hhi10 : maxAcc ((fun (d : Date) => 12 * d.y + d.m) ⟨2020, 1, 1⟩)
      ((⟨2020, 1, 1⟩ :: dateRange ⟨2020, 1, 2⟩ 9).map (fun d => 12 * d.y + d.m)) =
      24241 := by decide
  have hlo3y : minAcc ((fun (d : Date) => 12 * d.y + d.m) ⟨2020, 1, 1⟩)
      ((⟨2020, 1, 1⟩ :: dateRange ⟨2020, 1, 2⟩ 1095).map (fun d => 12 * d.y + d.m)) =
      24241 := by decide
  have hhi3y : maxAcc ((fun (d : Date) => 12 * d.y + d.m) ⟨2020, 1, 1⟩)
      ((⟨2020, 1, 1⟩ :: dateRange ⟨2020, 1, 2⟩ 1095).map (fun d => 12 * d.y + d.m)) =
      24276 := by decide
  rw [hlo10, hhi10] at hb10
  rw [hlo3y, hhi3y] at hb3y
  have hr10 : (resampledOf ⟨dateRange ⟨2020, 1, 1⟩ 10, [("temperature", v0 :: vs)]⟩
      "temperature" "monthly").length = 1 := by
    rw [he10, monthlyMeans, hd10, hb10, List.length_map, List.length_range]
  have hr3y : (resampledOf ⟨dateRange ⟨2020, 1, 1⟩ 1096, [("temperature", w0 :: ws)]⟩
      "temperature" "monthly").length = 36 := by
    rw [he3y, monthlyMeans, hd3y, hb3y, List.length_map, List.length_range]
  have hfin3y : (resampledOf ⟨dateRange ⟨2020, 1, 1⟩ 1096, [("temperature", w0 :: ws)]⟩
      "temperature" "monthly").all FloatVal.isFinite = true := by
    rw [he3y, monthlyMeans, hd3y, hb3y, all_isFinite_map]
    decide
  constructor
  · refine ⟨hr10, ?_⟩
    rw [analyze_eq decomp pval _ "temperature" "monthly" (v0 :: vs) (Or.inl rfl) hc10,
      analyzeCont_eq decomp pval _ (by omega) (Or.inl (by omega))]
    refine ⟨_, _, rfl, ?_, ?_, ?_⟩
    · rw [hr10]
      rfl
    · rw [hr10]
      rfl
    · rw [hr10]
      norm_num
      exact ⟨"Warning: Not enough data for seasonal decomposition. Need at least 24 observations, but only have ",
        ".", by rw [warnMsg]; decide⟩
  · refine ⟨hr3y, ?_⟩
    rw [analyze_eq decomp pval _ "temperature" "monthly" (w0 :: ws) (Or.inl rfl) hc3y,
      analyzeCont_eq decomp pval _ (by omega) (Or.inr hfin3y)]
    refine ⟨_, _, rfl, ?_, ?_⟩
    · rw [hr3y]
      rfl
    · rw [hr3y]
      rfl

/-- Witness for C5 with constant-zero temperature data. -/
theorem resample_point_count_examples_witness :
    ((resampledOf ⟨dateRange ⟨2020, 1, 1⟩ 10, [("temperature", List.replicate 10 (0 : ℝ))]⟩
        "temperature" "monthly").length = 1 ∧
      ∃ res notices,
        analyze_trends (fun _ _ => ([], [])) (fun _ _ => FloatVal.real 0)
            ⟨dateRange ⟨2020, 1, 1⟩ 10, [("temperature", List.replicate 10 (0 : ℝ))]⟩
            "temperature" "monthly" = Except.ok (res, notices) ∧
        res.seasonal = none ∧ res.residual = none ∧
        ∃ pre post, notices = [pre ++ "1" ++ post]) ∧
    ((resampledOf ⟨dateRange ⟨2020, 1, 1⟩ 1096,
        [("temperature", List.replicate 1096 (0 : ℝ))]⟩
        "temperature" "monthly").length = 36 ∧
      ∃ res notices,
        analyze_trends (fun _ _ => ([], [])) (fun _ _ => FloatVal.real 0)
            ⟨dateRange ⟨2020, 1, 1⟩ 1096, [("temperature", List.replicate 1096 (0 : ℝ))]⟩
            "temperature" "monthly" = Except.ok (res, notices) ∧
        res.seasonal.isSome ∧ res.residual.isSome) :=
  resample_point_count_examples (fun _ _ => ([], [])) (fun _ _ => FloatVal.real 0)
    (List.replicate 10 (0 : ℝ)) (List.replicate 1096 (0 : ℝ))
    (List.length_replicate 10 0) (List.length_replicate 1096 0)

/-! ### C9: sign of the fitted slope -/

lemma sum_centered_range (n : ℕ) (h : 1 ≤ n) :
    ∑ i ∈ Finset.range n, ((i : ℝ) - listMean (natCastRange n)) = 0 := by
  rw [Finset.sum_sub_distrib, sum_range_cast, natCastRange_mean n h, Finset.sum_const,
    Finset.card_range, nsmul_eq_mul]
  ring

lemma presum_centered_neg (n k : ℕ) (h2 : 2 ≤ n) (hk1 : 1 ≤ k) (hkn : k ≤ n - 1) :
    ∑ j ∈ Finset.range k, ((j : ℝ) - listMean (natCastRange n)) < 0 := by
  rw [Finset.sum_sub_distrib, sum_range_cast, natCastRange_mean n (by omega), Finset.sum_const,
    Finset.card_range, nsmul_eq_mul]
  have hk : (1 : ℝ) ≤ (k : ℝ) := by exact_mod_cast hk1
  have hkn' : (k : ℝ) ≤ (n : ℝ) - 1 := by
    have h' : (k : ℝ) ≤ ((n - 1 : ℕ) : ℝ) := by exact_mod_cast hkn
    rwa [Nat.cast_sub (by omega), Nat.cast_one] at h'
  nlinarith

lemma covBias_natCast (y : List ℝ) (n : ℕ) (hlen : y.length = n) (h1 : 1 ≤ n) :
    covBias (natCastRange n) y =
      (∑ i ∈ Finset.range n, y.getD i 0 * ((i : ℝ) - listMean (natCastRange n))) / n := by
  rw [covBias, zipWith_sum_eq _ _ _ (by rw [natCastRange_length, hlen]), natCastRange_length]
  congr 1
  have expand : ∀ i ∈ Finset.range n,
      ((natCastRange n).getD i 0 - listMean (natCastRange n)) * (y.getD i 0 - listMean y) =
        y.getD i 0 * ((i : ℝ) - listMean (natCastRange n)) -
          listMean y * ((i : ℝ) - listMean (natCastRange n)) := by
    intro i hi
    rw [natCastRange_getD n i (Finset.mem_range.1 hi)]
    ring
  rw [Finset.sum_congr rfl expand, Finset.sum_sub_distrib, ← Finset.mul_sum,
    sum_centered_range n h1, mul_zero, sub_zero]

lemma sum_weighted_strictMono_pos (y : List ℝ) (n : ℕ) (hlen : y.length = n)
    (h2 : 2 ≤ n) (hmono : List.Chain' (· < ·) y) :
    0 < ∑ i ∈ Finset.range n, y.getD i 0 * ((i : ℝ) - listMean (natCastRange n)) := by
  have habel := Finset.sum_range_by_parts (fun i => y.getD i 0)
    (fun i => (i : ℝ) - listMean (natCastRange n)) n
  simp only [smul_eq_mul] at habel
  rw [habel, sum_centered_range n (by omega), mul_zero, zero_sub, neg_pos]
  apply Finset.sum_neg
  · intro i hi
    have hi' : i < n - 1 := Finset.mem_range.1 hi
    have hstep : y.getD i 0 < y.getD (i + 1) 0 := by
      have hget := List.chain'_iff_get.1 hmono i (by omega)
      rwa [List.getD_eq_get _ _ (by omega), List.getD_eq_get _ _ (by omega)]
    have hneg : ∑ j ∈ Finset.range (i + 1), ((j : ℝ) - listMean (natCastRange n)) < 0 :=
      presum_centered_neg n (i + 1) h2 (by omega) (by omega)
    exact mul_neg_of_pos_of_neg (by linarith) hneg
  · exact ⟨0, Finset.mem_range.2 (by omega)⟩

lemma covBias_natCast_self_pos (n : ℕ) (h2 : 2 ≤ n) :
    0 < covBias (natCastRange n) (natCastRange n) := by
  rw [covBias, zipWith_sum_eq _ _ _ rfl, natCastRange_length]
  apply div_pos
  · apply Finset.sum_pos'
    · intro i hi
      rw [natCastRange_getD n i (Finset.mem_range.1 hi)]
      exact mul_self_nonneg _
    · refine ⟨0, Finset.mem_range.2 (by omega), ?_⟩
      rw [natCastRange_getD n 0 (by omega), natCastRange_mean n (by omega)]
      have hcast : (2 : ℝ) ≤ (n : ℝ) := by exact_mod_cast h2
      nlinarith
  · have : (0 : ℕ) < n := by omega
    exact_mod_cast this

lemma listMean_const (y : List ℝ) (c : ℝ) (h1 : 1 ≤ y.length) (hy : ∀ v ∈ y, v = c) :
    listMean y = c := by
  have hn : (y.length : ℝ) ≠ 0 := by
    have : y.length ≠ 0 := by omega
    exact_mod_cast this
  rw [listMean, List.sum_eq_card_nsmul y c hy, nsmul_eq_mul]
  field_simp

lemma covBias_const_right (x y : List ℝ) (c : ℝ) (hlen : x.length = y.length)
    (hy : ∀ v ∈ y, v = c) : covBias x y = 0 := by
  by_cases h0 : y.length = 0
  · rw [covBias, zipWith_sum_eq _ _ _ hlen, hlen, h0]
    simp
  · rw [covBias, zipWith_sum_eq _ _ _ hlen]
    have hz : ∀ i ∈ Finset.range x.length,
        (x.getD i 0 - listMean x) * (y.getD i 0 - listMean y) = 0 := by
      intro i hi
      have hmy : listMean y = c := listMean_const y c (by omega) hy
      have hilt : i < y.length := hlen ▸ Finset.mem_range.1 hi
      have hyi : y.getD i 0 = c := by
        rw [List.getD_eq_getElem _ _ hilt]
        exact hy _ (List.getElem_mem hilt)
      rw [hyi, hmy, sub_self, mul_zero]
    rw [Finset.sum_eq_zero hz, zero_div]

lemma linStatsF_strictMono_slope_pos (pval : FloatVal → ℕ → FloatVal) (l : List ℝ)
    (n : ℕ) (hlen : l.length = n) (h2 : 2 ≤ n) (hmono : List.Chain' (· < ·) l) :
    ∃ s, (linStats pval (natCastRange n) (l.map FloatVal.real)).slope = FloatVal.real s ∧
      0 < s := by
  have hnpos : (0 : ℝ) < n := by
    have : (0 : ℕ) < n := by omega
    exact_mod_cast this
  have hx1 : 1 ≤ (natCastRange n).length := by
    rw [natCastRange_length]
    omega
  have hssxm := covBiasF_map_real (natCastRange n) (natCastRange n) hx1 hx1
  have hssxym := covBiasF_map_real (natCastRange n) l hx1 (by omega)
  have hxy : 0 < covBias (natCastRange n) l := by
    rw [covBias_natCast l n hlen (by omega)]
    exact div_pos (sum_weighted_strictMono_pos l n hlen h2 hmono) hnpos
  have hxx := covBias_natCast_self_pos n h2
  refine ⟨covBias (natCastRange n) l / covBias (natCastRange n) (natCastRange n), ?_,
    div_pos hxy hxx⟩
  simp only [linStats]
  rw [hssxym, hssxm, fvDiv_real, fdivF, if_neg (ne_of_gt hxx)]

lemma linStatsF_const (pval : FloatVal → ℕ → FloatVal) (l : List ℝ) (n : ℕ) (c : ℝ)
    (hlen : l.length = n) (h2 : 2 ≤ n) (hc : ∀ v ∈ l, v = c) :
    (linStats pval (natCastRange n) (l.map FloatVal.real)).slope = FloatVal.real 0 ∧
      (linStats pval (natCastRange n) (l.map FloatVal.real)).r_value = FloatVal.real 0 := by
  have hx1 : 1 ≤ (natCastRange n).length := by
    rw [natCastRange_length]
    omega
  have hl1 : 1 ≤ l.length := by omega
  have hssxm := covBiasF_map_real (natCastRange n) (natCastRange n) hx1 hx1
  have hssym := covBiasF_map_real l l hl1 hl1
  have hssxym := covBiasF_map_real (natCastRange n) l hx1 hl1
  have hxy : covBias (natCastRange n) l = 0 :=
    covBias_const_right _ _ c (by rw [natCastRange_length, hlen]) hc
  have hyy : covBias l l = 0 := covBias_const_right l l c rfl hc
  have hxx := covBias_natCast_self_pos n h2
  constructor
  · simp only [linStats]
    rw [hssxym, hssxm, hxy, fvDiv_real, fdivF, if_neg (ne_of_gt hxx), zero_div]
  · simp only [linStats]
    rw [if_pos (Or.inr (by rw [hssym, hyy]))]

/-- C9 (amended): for every table, valid column and valid period tag
whose resampled series has at least two bins, the linear trend fitted
by `analyze_trends` (ordinary least squares against the zero-based
integer position) has a strictly positive slope on every strictly
increasing resampled series (adjacent bins are finite and increasing —
IEEE comparisons with an empty NaN bin are never true), and on every
constant resampled series has slope exactly 0 and correlation
coefficient exactly 0. (The original claim, with no lower bound on the
bin count, fails on a single-bin resampled series, whose slope is NaN —
see the counterexample.) -/
theorem trend_slope_signs (decomp : List FloatVal → ℕ → List FloatVal × List FloatVal)
    (pval : FloatVal → ℕ → FloatVal) (df : DFrame) (varName period : String)
    (hp : period = "monthly" ∨ period = "yearly")
    (hv : varName ∈ df.columnNames)
    (hn : 2 ≤ (resampledOf df varName period).length) :
    (List.Chain' fvLt (resampledOf df varName period) →
      ∃ res notices s,
        analyze_trends decomp pval df varName period = Except.ok (res, notices) ∧
        res.trend.slope = FloatVal.real s ∧ 0 < s) ∧
    ((∃ c : ℝ, ∀ v ∈ resampledOf df varName period, v = FloatVal.real c) →
      ∃ res notices,
        analyze_trends decomp pval df varName period = Except.ok (res, notices) ∧
        res.trend.slope = FloatVal.real 0 ∧ res.trend.r_value = FloatVal.real 0) := by
  obtain ⟨col, hc⟩ := getCol_mem df varName hv
  rw [analyze_eq decomp pval df varName period col hp hc]
  constructor
  · intro hmono
    obtain ⟨heq, hchain⟩ := chain_fvLt_toReal _ hn hmono
    have hfin : (resampledOf df varName period).all FloatVal.isFinite = true := by
      rw [heq]
      exact all_map_real_isFinite _
    rw [analyzeCont_eq decomp pval _ (by omega) (Or.inr hfin)]
    obtain ⟨s, hs, hpos⟩ := linStatsF_strictMono_slope_pos pval
      ((resampledOf df varName period).map FloatVal.toRealD)
      ((resampledOf df varName period).map FloatVal.toRealD).length rfl
      (by rw [List.length_map]; omega) hchain
    refine ⟨_, _, s, rfl, ?_, hpos⟩
    show (linStats pval (natCastRange (resampledOf df varName period).length)
      (resampledOf df varName period)).slope = FloatVal.real s
    conv_lhs => rw [heq]
    simp only [List.length_map] at hs ⊢
    exact hs
  · rintro ⟨c, hconst⟩
    have heq : resampledOf df varName period =
        (List.replicate (resampledOf df varName period).length c).map FloatVal.real := by
      rw [List.map_replicate]
      exact List.eq_replicate_iff.2 ⟨rfl, hconst⟩
    have hfin : (resampledOf df varName period).all FloatVal.isFinite = true := by
      rw [heq]
      exact all_map_real_isFinite _
    rw [analyzeCont_eq decomp pval _ (by omega) (Or.inr hfin)]
    obtain ⟨hs, hr⟩ := linStatsF_const pval
      (List.replicate (resampledOf df varName period).length c)
      (resampledOf df varName period).length c (List.length_replicate _ _) hn
      (fun v hv => List.eq_of_mem_replicate hv)
    refine ⟨_, _, rfl, ?_, ?_⟩
    · show (linStats pval (natCastRange (resampledOf df varName period).length)
        (resampledOf df varName period)).slope = FloatVal.real 0
      conv_lhs => rw [heq]
      simp only [List.length_map, List.length_replicate]
      exact hs
    · show (linStats pval (natCastRange (resampledOf df varName period).length)
        (resampledOf df varName period)).r_value = FloatVal.real 0
      conv_lhs => rw [heq]
      simp only [List.length_map, List.length_replicate]
      exact hr

/-- Counterexample to C9 as stated: a table resampling to the single
bin [5] (a constant — and vacuously monotone — series). The fitted
slope is NaN (0/0), not a real number near 0 and not positive. -/
theorem trend_slope_single_point_nan :
    (analyze_trends (fun _ _ => ([], [])) (fun _ _ => FloatVal.real 0)
        ⟨[⟨2020, 1, 1⟩], [("temperature", [5])]⟩ "temperature" "monthly").toOption.map
      (fun p => p.1.trend.slope) = some FloatVal.nan ∧
    FloatVal.nan ≠ FloatVal.real 0 := by
  constructor
  · have hc : (DFrame.mk [⟨2020, 1, 1⟩] [("temperature", [5])]).getCol "temperature" =
        some [(5 : ℝ)] := by simp [DFrame.getCol]
    have hrs : resampledOf ⟨[⟨2020, 1, 1⟩], [("temperature", [5])]⟩ "temperature" "monthly" =
        [FloatVal.real (listMean [(5 : ℝ)])] := by
      simp [resampledOf, hc, monthlyMeans, resampleBins, minAcc, maxAcc,
        List.range_succ, List.filter]
    rw [analyze_eq (fun _ _ => ([], [])) (fun _ _ => FloatVal.real 0) _ "temperature"
      "monthly" [(5 : ℝ)] (Or.inl rfl) hc, hrs,
      analyzeCont_eq (fun _ _ => ([], [])) (fun _ _ => FloatVal.real 0) _ (by simp)
        (Or.inl (by simp))]
    have hslope : (linStats (fun _ _ => FloatVal.real 0) (natCastRange 1)
        ([listMean [(5 : ℝ)]].map FloatVal.real)).slope = FloatVal.nan := by
      have hxy : covBias (natCastRange 1) [listMean [(5 : ℝ)]] = 0 :=
        covBias_const_right _ _ (listMean [(5 : ℝ)]) (by rw [natCastRange_length]; rfl)
          (by simp)
      have hxx : covBias (natCastRange 1) (natCastRange 1) = 0 := by
        have h1 : natCastRange 1 = [(0 : ℝ)] := by
          simp [natCastRange, List.range_succ]
        rw [h1]
        norm_num [covBias, listMean]
      have hx1 : 1 ≤ (natCastRange 1).length := by rw [natCastRange_length]
      simp only [linStats]
      rw [covBiasF_map_real (natCastRange 1) [listMean [(5 : ℝ)]] hx1 (by rfl),
        covBiasF_map_real (natCastRange 1) (natCastRange 1) hx1 hx1,
        hxy, hxx, fvDiv_real, fdivF]
      norm_num
    have hform : [FloatVal.real (listMean [(5 : ℝ)])] =
        [listMean [(5 : ℝ)]].map FloatVal.real := rfl
    simp only [Except.toOption, Option.map, List.length_singleton]
    rw [hform, hslope]
  · intro h
    cases h

/-- Witness for C9 on two rows in consecutive months with temperatures
[1, 2]: the resampled series is the two finite bins [1, 2], strictly
increasing, and the fitted slope is positive. -/
theorem trend_slope_signs_witness :
    ∃ res notices s,
      analyze_trends (fun _ _ => ([], [])) (fun _ _ => FloatVal.real 0)
          ⟨[⟨2020, 1, 1⟩, ⟨2020, 2, 1⟩], [("temperature", [1, 2])]⟩
          "temperature" "monthly" = Except.ok (res, notices) ∧
      res.trend.slope = FloatVal.real s ∧ 0 < s := by
  have hc : (DFrame.mk [⟨2020, 1, 1⟩, ⟨2020, 2, 1⟩] [("temperature", [1, 2])]).getCol
      "temperature" = some [(1 : ℝ), 2] := by simp [DFrame.getCol]
  have hrs : resampledOf ⟨[⟨2020, 1, 1⟩, ⟨2020, 2, 1⟩], [("temperature", [1, 2])]⟩
      "temperature" "monthly" =
      [FloatVal.real (listMean [(1 : ℝ)]), FloatVal.real (listMean [(2 : ℝ)])] := by
    simp [resampledOf, hc, monthlyMeans, resampleBins, minAcc, maxAcc,
      List.range_succ, List.filter]
  have hm1 : listMean [(1 : ℝ)] = 1 := by norm_num [listMean]
  have hm2 : listMean [(2 : ℝ)] = 2 := by norm_num [listMean]
  exact (trend_slope_signs (fun _ _ => ([], [])) (fun _ _ => FloatVal.real 0)
      ⟨[⟨2020, 1, 1⟩, ⟨2020, 2, 1⟩], [("temperature", [1, 2])]⟩ "temperature" "monthly"
      (Or.inl rfl) (by simp [DFrame.columnNames])
      (by rw [hrs]; rfl)).1
    (by
      rw [hrs, hm1, hm2]
      exact List.chain'_pair.2 ⟨1, 2, rfl, rfl, by norm_num⟩)

end Climate
